import Mathlib

/-!
Verification development for the DP multi-timing bandwidth checker
(`src/MyApp.tsx`).  JavaScript numbers are modelled as exact rationals;
`Math.floor` and `Math.round` are modelled by `jsFloor` and `jsRound`.
Division by zero in the rational model stands for the exceptional JS
infinity cases, which arise for none of the inputs considered here.
-/

/-- Model of JavaScript `Math.floor`, as a map on rationals. -/
def jsFloor (x : ℚ) : ℚ := ((⌊x⌋ : ℤ) : ℚ)

/-- Model of JavaScript `Math.round` (round half toward positive infinity). -/
def jsRound (x : ℚ) : ℚ := ((⌊x + 1/2⌋ : ℤ) : ℚ)

/-- `CVT_CELL_GRAN` from the source. -/
def CVT_CELL_GRAN : ℚ := 8

/-- `CVT_HSYNC_PERCENT` from the source (0.08). -/
def CVT_HSYNC_PERCENT : ℚ := 8/100

/-- `CVT_MIN_V_PORCH` from the source. -/
def CVT_MIN_V_PORCH : ℚ := 3

/-- `CVT_MIN_VSYNC_BP` from the source (µs). -/
def CVT_MIN_VSYNC_BP : ℚ := 550

/-- `CVT_MIN_V_BPORCH` from the source. -/
def CVT_MIN_V_BPORCH : ℚ := 6

/-- `CVT_MARGIN_PERCENT` from the source (1.8). -/
def CVT_MARGIN_PERCENT : ℚ := 18/10

/-- `CVT_C_PRIME` from the source. -/
def CVT_C_PRIME : ℚ := 30

/-- `CVT_M_PRIME` from the source. -/
def CVT_M_PRIME : ℚ := 300

/-- The non-manual generation profiles (`CvtProfile` in the source). -/
inductive CvtProfile where
  | cvt
  | cvt_rb
  | cvt_rb2
deriving DecidableEq, Repr

/-- The per-profile parameter record built by the `clockParams` IIFE. -/
structure ClockParams where
  clockStep : ℚ
  clockStepInv : ℚ
  rbHBlank : ℚ
  rbHSync : ℚ
  rbMinVBlank : ℚ
  rbVFrontPorch : ℚ
  refreshMultiplier : ℚ
deriving Repr

/-- `clockParams` switch from `calculateCvtTiming` (0.25 = 1/4, 0.001 = 1/1000). -/
def clockParams (p : CvtProfile) (videoOptimized : Bool) : ClockParams :=
  match p with
  | CvtProfile.cvt => ⟨1/4, 4, 160, 32, 460, 3, 1⟩
  | CvtProfile.cvt_rb => ⟨1/4, 4, 160, 32, 460, 3, 1⟩
  | CvtProfile.cvt_rb2 => ⟨1/1000, 1000, 80, 32, 460, 1, if videoOptimized then 1000/1001 else 1⟩

/-- `aspectCandidates` list from `calculateCvtTiming`. -/
def aspectCandidates : List (String × ℚ) :=
  [("4:3", 4/3), ("16:9", 16/9), ("16:10", 16/10), ("5:4", 5/4),
   ("15:9", 15/9), ("43:18", 43/18), ("64:27", 64/27), ("12:5", 12/5)]

/-- The aspect-ratio first-match scan from `calculateCvtTiming`
(`find` over `aspectCandidates`, defaulting to "Unknown"). -/
def aspectRatio (cellGran verPixels hPixelsRounded : ℚ) : String :=
  match aspectCandidates.find?
      (fun c => decide (cellGran * jsRound (verPixels * c.2 / cellGran) = hPixelsRounded)) with
  | some c => c.1
  | none => "Unknown"

/-- The vertical sync width if-chain from `calculateCvtTiming`. -/
def vSyncRounded (p : CvtProfile) (aspect : String) : ℚ :=
  if p = CvtProfile.cvt_rb2 then 8
  else if aspect = "4:3" then 4
  else if aspect = "16:9" then 5
  else if aspect = "16:10" then 6
  else if aspect = "5:4" then 7
  else if aspect = "15:9" then 7
  else 10

/-- The per-branch intermediate values of `calculateCvtTiming`, before the
final `Math.round` calls of the returned record. -/
structure BranchOut where
  hBlank : ℚ
  hFrontPorch : ℚ
  hSync : ℚ
  hBackPorch : ℚ
  vFrontPorch : ℚ
  vBackPorch : ℚ
  vBlank : ℚ
  totalPixels : ℚ
  totalVLines : ℚ
  pixelClockMHz : ℚ
deriving Repr

/-- The `reducedBlanking === "cvt"` branch of `calculateCvtTiming`. -/
def cvtBranch (cp : ClockParams) (cellGran totalActivePixels vLinesRounded topMargin
    bottomMargin interlaceFactor fieldRateRequired vs : ℚ) : BranchOut :=
  let hPeriodEst := ((1 / fieldRateRequired) - CVT_MIN_VSYNC_BP / 1000000) /
      (vLinesRounded + (2 * topMargin) + CVT_MIN_V_PORCH + interlaceFactor) * 1000000
  let vsbp0 := jsFloor (CVT_MIN_VSYNC_BP / hPeriodEst) + 1
  let vSyncBackPorch := if vsbp0 < vs + CVT_MIN_V_BPORCH then vs + CVT_MIN_V_BPORCH else vsbp0
  let vBlank := vSyncBackPorch + CVT_MIN_V_PORCH
  let vFrontPorch := CVT_MIN_V_PORCH
  let vBackPorch := vSyncBackPorch - vs
  let totalVLines := vLinesRounded + topMargin + bottomMargin + vSyncBackPorch +
      interlaceFactor + CVT_MIN_V_PORCH
  let idealDutyCycle := CVT_C_PRIME - (CVT_M_PRIME * hPeriodEst / 1000)
  let minDutyCycle : ℚ := 20
  let hBlank :=
    if idealDutyCycle < minDutyCycle then
      jsFloor (totalActivePixels * minDutyCycle / (100 - minDutyCycle) / (2 * cellGran)) * (2 * cellGran)
    else
      jsFloor (totalActivePixels * idealDutyCycle / (100 - idealDutyCycle) / (2 * cellGran)) * (2 * cellGran)
  let totalPixels := totalActivePixels + hBlank
  let hSync := jsFloor (CVT_HSYNC_PERCENT * totalPixels / cellGran) * cellGran
  let hBackPorch := hBlank / 2
  let hFrontPorch := hBlank - hSync - hBackPorch
  let pixelClockMHz := cp.clockStep * jsFloor (totalPixels / hPeriodEst / cp.clockStep)
  ⟨hBlank, hFrontPorch, hSync, hBackPorch, vFrontPorch, vBackPorch, vBlank,
    totalPixels, totalVLines, pixelClockMHz⟩

/-- The reduced-blanking (else) branch of `calculateCvtTiming`. -/
def rbBranch (p : CvtProfile) (cp : ClockParams) (totalActivePixels vLinesRounded topMargin
    bottomMargin interlaceFactor fieldRateRequired vs : ℚ) : BranchOut :=
  let hPeriodEst := (1000000 / fieldRateRequired - cp.rbMinVBlank) /
      (vLinesRounded + topMargin + bottomMargin)
  let hBlank := cp.rbHBlank
  let vbiLines := jsFloor (cp.rbMinVBlank / hPeriodEst) + 1
  let rbMinVbi := cp.rbVFrontPorch + vs + CVT_MIN_V_BPORCH
  let activeVbiLines := if vbiLines < rbMinVbi then rbMinVbi else vbiLines
  let vBlank := activeVbiLines
  let totalVLines := activeVbiLines + vLinesRounded + topMargin + bottomMargin + interlaceFactor
  let totalPixels := totalActivePixels + cp.rbHBlank
  let pixelClockMHz := jsFloor (fieldRateRequired * totalVLines * totalPixels *
      cp.clockStepInv / 1000000) * cp.refreshMultiplier / cp.clockStepInv
  if p = CvtProfile.cvt_rb2 then
    let hSync := cp.rbHSync
    let hBackPorch : ℚ := 40
    let hFrontPorch := hBlank - hSync - hBackPorch
    ⟨hBlank, hFrontPorch, hSync, hBackPorch, activeVbiLines - vs - 6, 6, vBlank,
      totalPixels, totalVLines, pixelClockMHz⟩
  else
    let hSync := cp.rbHSync
    let hBackPorch : ℚ := 80
    let hFrontPorch := hBlank - hSync - hBackPorch
    ⟨hBlank, hFrontPorch, hSync, hBackPorch, 3, activeVbiLines - 3 - vs, vBlank,
      totalPixels, totalVLines, pixelClockMHz⟩

/-- `CvtTimingResult` record from the source. -/
structure CvtTimingResult where
  pixelClockMHz : ℚ
  hTotal : ℚ
  vTotal : ℚ
  hBlank : ℚ
  vBlank : ℚ
  hFront : ℚ
  hSync : ℚ
  hBack : ℚ
  vFront : ℚ
  vSync : ℚ
  vBack : ℚ
deriving DecidableEq, Repr

/-- `calculateCvtTiming` from the source, over exact rationals. -/
def calculateCvtTiming (hActive vActive refreshHz : ℚ) (reducedBlanking : CvtProfile)
    (margins interlaced videoOptimized : Bool) : CvtTimingResult :=
  let cp := clockParams reducedBlanking videoOptimized
  let cellGran := jsFloor CVT_CELL_GRAN
  let fieldRateRequired := if interlaced then refreshHz * 2 else refreshHz
  let hPixelsRounded := jsFloor (hActive / cellGran) * cellGran
  let leftMargin := if margins then
      jsFloor ((hPixelsRounded * CVT_MARGIN_PERCENT / 100) / cellGran) * cellGran else 0
  let totalActivePixels := hPixelsRounded + leftMargin * 2
  let vLinesRounded := if interlaced then jsFloor (vActive / 2) else jsFloor vActive
  let topMargin := if margins then jsFloor (vLinesRounded * CVT_MARGIN_PERCENT / 100) else 0
  let bottomMargin := topMargin
  let interlaceFactor : ℚ := if interlaced then 1/2 else 0
  let verPixels := if interlaced then 2 * vLinesRounded else vLinesRounded
  let ar := aspectRatio cellGran verPixels hPixelsRounded
  let vs := vSyncRounded reducedBlanking ar
  let b :=
    match reducedBlanking with
    | CvtProfile.cvt =>
        cvtBranch cp cellGran totalActivePixels vLinesRounded topMargin bottomMargin
          interlaceFactor fieldRateRequired vs
    | _ =>
        rbBranch reducedBlanking cp totalActivePixels vLinesRounded topMargin bottomMargin
          interlaceFactor fieldRateRequired vs
  { pixelClockMHz := b.pixelClockMHz
    hTotal := jsRound b.totalPixels
    vTotal := jsRound b.totalVLines
    hBlank := jsRound b.hBlank
    vBlank := jsRound b.vBlank
    hFront := jsRound b.hFrontPorch
    hSync := jsRound b.hSync
    hBack := jsRound b.hBackPorch
    vFront := jsRound b.vFrontPorch
    vSync := jsRound vs
    vBack := jsRound b.vBackPorch }

/-!
JSON values and JavaScript coercions, for the import/export handlers.
`Option JValue` models a JS value that may be `undefined`; a failed
`JSON.parse` is modelled by `Option JValue = none` at the payload level.
`Option ℚ` models a JS number that may be `NaN` (`none`).
-/

/-- A parsed JSON value. -/
inductive JValue where
  | null
  | bool (b : Bool)
  | num (q : ℚ)
  | str (s : String)
  | arr (elems : List JValue)
  | obj (fields : List (String × JValue))
deriving Repr

/-- First-match field lookup in a JSON object field list. -/
def lookupField : List (String × JValue) → String → Option JValue
  | [], _ => none
  | (k', v) :: rest, k => if k' = k then some v else lookupField rest k

/-- JS member access `v[k]`: a field of an object, `undefined` (`none`)
on other non-null bases, and a thrown `TypeError` (`Except.error`) on a
`null` base. -/
def jMember (v : JValue) (k : String) : Except Unit (Option JValue) :=
  match v with
  | JValue.null => Except.error ()
  | JValue.obj fields => Except.ok (lookupField fields k)
  | _ => Except.ok none

/-- Member access on a base the surrounding code has already established
to be non-null (a truthy transport value, or the parsed payload after its
first member access succeeded): the error case of `jMember` is
unreachable there and read as `undefined`. -/
def jGetD (v : JValue) (k : String) : Option JValue :=
  match jMember v k with
  | Except.ok o => o
  | Except.error _ => none

/-- Numeric value of a digit list (most significant first). -/
def natFromDigits (cs : List Char) : ℚ :=
  ((cs.foldl (fun n c => n * 10 + (c.toNat - 48)) 0 : ℕ) : ℚ)

/-- JS whitespace characters stripped by `Number(string)`. -/
def isJsSpace (c : Char) : Bool :=
  c = ' ' || c = '\t' || c = '\n' || c = '\r'

/-- Model of JS `Number(string)` on decimal literals: the trimmed empty
string is 0; an optional sign, integer digits and an optional fraction
part parse to the exact rational; anything else is `NaN` (`none`).
Exponent, hexadecimal and `Infinity` forms are outside the modelled
fragment (no string considered by the claims uses them). -/
def jsStringToNumber (s : String) : Option ℚ :=
  let cs := ((s.toList.dropWhile isJsSpace).reverse.dropWhile isJsSpace).reverse
  if cs.isEmpty then some 0
  else
    let body : List Char → Option ℚ := fun r =>
      let intPart := r.takeWhile (·.isDigit)
      let rest1 := r.dropWhile (·.isDigit)
      match rest1 with
      | [] => if intPart.isEmpty then none else some (natFromDigits intPart)
      | '.' :: frac =>
          if frac.all (·.isDigit) && (!intPart.isEmpty || !frac.isEmpty) then
            some (natFromDigits intPart + natFromDigits frac / (10 : ℚ) ^ frac.length)
          else none
      | _ => none
    match cs with
    | '-' :: r => (body r).map (fun q => -q)
    | '+' :: r => body r
    | r => body r

/-- Model of JS `Number(value)` on JSON values (`none` is `NaN`).
Array coercion is modelled one level deep, matching JS on the
single-element and empty cases; no claim exercises deeper nesting. -/
def jsToNumber : JValue → Option ℚ
  | JValue.null => some 0
  | JValue.bool b => some (if b then 1 else 0)
  | JValue.num q => some q
  | JValue.str s => jsStringToNumber s
  | JValue.arr [] => some 0
  | JValue.arr [JValue.num q] => some q
  | JValue.arr [JValue.null] => some 0
  | JValue.arr [JValue.str s] => jsStringToNumber s
  | JValue.arr _ => none
  | JValue.obj _ => none

/-- `Number(x)` where `x` may be `undefined` (`Number(undefined)` is `NaN`). -/
def jsToNumberOpt (v : Option JValue) : Option ℚ :=
  match v with
  | none => none
  | some j => jsToNumber j

/-- JS truthiness of a JSON value. -/
def jsTruthy : JValue → Bool
  | JValue.null => false
  | JValue.bool b => b
  | JValue.num q => decide (q ≠ 0)
  | JValue.str s => decide (s ≠ "")
  | JValue.arr _ => true
  | JValue.obj _ => true

/-- Model of JS `String(value)`.  String inputs are returned as they are;
the number branch uses the rational printer as a stand-in for JS numeric
formatting (every claim-relevant application is to a string). -/
def jsToString : JValue → String
  | JValue.null => "null"
  | JValue.bool true => "true"
  | JValue.bool false => "false"
  | JValue.num q => toString q
  | JValue.str s => s
  | JValue.arr _ => ""
  | JValue.obj _ => ""

/-- `x || 0` applied to a JS number that may be `NaN`:
`NaN` and `0` both give `0`. -/
def jsNumOrZero (v : Option ℚ) : ℚ :=
  match v with
  | none => 0
  | some q => if q = 0 then 0 else q

/-!
The data model of the application: `TimingRow` and the pieces of React
state touched by the claims (`timings`, `rate`, `lanes`, `coding`,
`presetId`).  The `coding` field is kept as a string, since the import
handler writes a value outside the declared `Coding` union through an
`as any` cast.
-/

/-- `COLOR_FORMATS` table (factor per format id). -/
def COLOR_FORMATS : List (String × ℚ) :=
  [("rgb", 3), ("yuv444", 3), ("yuv422", 2), ("yuv420", 3/2)]

/-- The `Object.prototype` property names, visible through the JS `in`
operator and bracket indexing on any object literal. -/
def OBJECT_PROTOTYPE_KEYS : List String :=
  ["constructor", "hasOwnProperty", "isPrototypeOf", "propertyIsEnumerable",
   "toLocaleString", "toString", "valueOf", "__proto__",
   "__defineGetter__", "__defineSetter__", "__lookupGetter__", "__lookupSetter__"]

/-- The factor of `COLOR_FORMATS[s] ?? COLOR_FORMATS[rgb]`: an own key
gives its factor; an inherited `Object.prototype` key passes the `in`
check but indexes to a non-format member whose `.factor` is `undefined`
(`none`, JS `NaN` after multiplication); any other string indexes to
`undefined`, so the `??` fallback supplies the rgb factor. -/
def colorFactor (s : String) : Option ℚ :=
  match (COLOR_FORMATS.find? (fun c => decide (c.1 = s))) with
  | some c => some c.2
  | none => if OBJECT_PROTOTYPE_KEYS.contains s then none else some 3

/-- `DEFAULT_BPC` from the source. -/
def DEFAULT_BPC : ℚ := 8

/-- `LANE_OPTIONS` from the source. -/
def LANE_OPTIONS : List ℚ := [1, 2, 4]

/-- `codingEfficiency` from the source, on the string coding value. -/
def codingEfficiency (coding : String) : ℚ :=
  if coding = "8b10b" then 8/10 else 128/132

/-- `TimingRow` from the source.  String-typed fields stay strings;
optional numeric fields are `Option ℚ`; `dscRatio` holds the raw imported
JSON value (the import handler copies it through untyped). -/
structure TimingRow where
  id : String
  label : String
  peakBw : String
  peakBwDsc : String
  useDsc : Bool
  calcOpen : Bool
  modeIndex : ℚ
  cvtKind : String
  h : Option ℚ
  v : Option ℚ
  hz : Option ℚ
  hFront : Option ℚ
  hSync : Option ℚ
  hBack : Option ℚ
  vFront : Option ℚ
  vSync : Option ℚ
  vBack : Option ℚ
  bpp : Option ℚ
  bpc : ℚ
  colorFormat : String
  dscRatio : Option JValue
  pixelClock : Option ℚ
deriving Repr

/-- `pixelClockMHzFromTotals` from the source. -/
def pixelClockMHzFromTotals (h v hz hFront hSync hBack vFront vSync vBack : ℚ) : ℚ :=
  let hTotal := h + hFront + hSync + hBack
  let vTotal := v + vFront + vSync + vBack
  (hTotal * vTotal * hz) / 1000000

/-- `DEFAULT_PRESET_TIMING` from the source. -/
def DEFAULT_PRESET_TIMING : CvtTimingResult :=
  calculateCvtTiming 3840 2160 144 CvtProfile.cvt_rb2 false false false

/-- `emptyTiming` from the source (`defaultCalc` spread included).  The
`Date.now()` id prefix is abstracted as a fixed string. -/
def emptyTiming (i : ℕ) : TimingRow :=
  { id := "ts_" ++ toString i
    label := "Timing " ++ toString (i + 1)
    peakBw := ""
    peakBwDsc := ""
    useDsc := true
    calcOpen := false
    modeIndex := 0
    cvtKind := "cvt_rb2"
    h := some 3840
    v := some 2160
    hz := some 144
    hFront := some DEFAULT_PRESET_TIMING.hFront
    hSync := some DEFAULT_PRESET_TIMING.hSync
    hBack := some DEFAULT_PRESET_TIMING.hBack
    vFront := some DEFAULT_PRESET_TIMING.vFront
    vSync := some DEFAULT_PRESET_TIMING.vSync
    vBack := some DEFAULT_PRESET_TIMING.vBack
    bpp := some (DEFAULT_BPC * 3)
    bpc := DEFAULT_BPC
    colorFormat := "rgb"
    dscRatio := some (JValue.num 3)
    pixelClock := some DEFAULT_PRESET_TIMING.pixelClockMHz }

/-- The app-level state touched by import/export: `timings`, `rate`,
`lanes`, `coding`, `presetId`. -/
structure AppState where
  timings : List TimingRow
  rate : ℚ
  lanes : ℚ
  coding : String
  presetId : String
deriving Repr

/-- The selected rate of a row in the aggregation
(`t.useDsc ? Number(t.peakBwDsc)||0 : Number(t.peakBw)||0`). -/
def selectedRate (t : TimingRow) : ℚ :=
  if t.useDsc then jsNumOrZero (jsStringToNumber t.peakBwDsc)
  else jsNumOrZero (jsStringToNumber t.peakBw)

/-- `totalGbps`: the reduce over the parsed rows. -/
def totalGbps (ts : List TimingRow) : ℚ :=
  ts.foldl (fun s t => s + selectedRate t) 0

/-- `fits = totalGbps <= payloadCapacityGbps + 1e-9`. -/
def fits (ts : List TimingRow) (payloadCapacityGbps : ℚ) : Bool :=
  decide (totalGbps ts ≤ payloadCapacityGbps + 1/1000000000)

/-- `rawCapacityGbps = rate * lanes`. -/
def rawCapacityGbps (rate lanes : ℚ) : ℚ := rate * lanes

/-- `payloadCapacityGbps = rawCapacityGbps * eff`. -/
def payloadCapacityGbps (rate lanes : ℚ) (coding : String) : ℚ :=
  rawCapacityGbps rate lanes * codingEfficiency coding

/-- `addTiming` from the source: append a fresh row when fewer than 4. -/
def addTiming (ts : List TimingRow) : List TimingRow :=
  if ts.length < 4 then ts ++ [emptyTiming ts.length] else ts

/-- The effective DSC ratio at the point of use
(`t.dscRatio && t.dscRatio > 0 ? t.dscRatio : 3` in `onChooseMode` and
`computeAndFill`, with JS numeric coercion on the comparison). -/
def effectiveDscRatio (t : TimingRow) : ℚ :=
  match t.dscRatio with
  | none => 3
  | some v =>
      if jsTruthy v && (match jsToNumber v with | some q => decide (0 < q) | none => false) then
        (jsToNumber v).getD 0
      else 3

/-!
The JSON export (`exportJson`) and import (`onImport`) handlers.
-/

/-- `Number(...) || d`: `NaN` and `0` fall back to `d`. -/
def jsNumOrDefault (v : Option ℚ) (d : ℚ) : ℚ :=
  match v with
  | none => d
  | some q => if q = 0 then d else q

/-- The fields read by one restored row of the import handler, as a
getter from field name to member value; built from a base already known
to be non-null (the null case is screened off in `restoreTiming`, where
the first member access throws). The `in COLOR_FORMATS` check also
accepts inherited `Object.prototype` keys. -/
def restoreRowFrom (i : ℕ) (get : String → Option JValue) : TimingRow :=
  let importedFormat :=
    match get "colorFormat" with
    | some (JValue.str s) =>
        if (COLOR_FORMATS.find? (fun c => decide (c.1 = s))).isSome
            || OBJECT_PROTOTYPE_KEYS.contains s then s
        else "rgb"
    | _ => "rgb"
  let bpc :=
    match jsToNumberOpt (get "bpc") with
    | some q => if 0 < q then q else DEFAULT_BPC
    | none => DEFAULT_BPC
  let bpp :=
    match jsToNumberOpt (get "bpp") with
    | some q =>
        if 0 < q then some q
        else (colorFactor importedFormat).map (fun f => bpc * f)
    | none => (colorFactor importedFormat).map (fun f => bpc * f)
  let h := jsToNumberOpt (get "h")
  let v := jsToNumberOpt (get "v")
  let hz := jsToNumberOpt (get "hz")
  let hFront := jsToNumberOpt (get "hFront")
  let hSync := jsToNumberOpt (get "hSync")
  let hBack := jsToNumberOpt (get "hBack")
  let vFront := jsToNumberOpt (get "vFront")
  let vSync := jsToNumberOpt (get "vSync")
  let vBack := jsToNumberOpt (get "vBack")
  let computedPixelClock :=
    match h, v, hz, hFront, hSync, hBack, vFront, vSync, vBack with
    | some a, some b, some c, some d, some e, some f, some g, some p, some q =>
        some (pixelClockMHzFromTotals a b c d e f g p q)
    | _, _, _, _, _, _, _, _, _ => none
  let pixelClock :=
    match jsToNumberOpt (get "pixelClock") with
    | some q => if 0 < q then some q else computedPixelClock
    | none => computedPixelClock
  { id :=
      match get "id" with
      | some w => if jsTruthy w then jsToString w else "ts_" ++ toString i
      | none => "ts_" ++ toString i
    label :=
      match get "label" with
      | some JValue.null => "Timing " ++ toString (i + 1)
      | some w => jsToString w
      | none => "Timing " ++ toString (i + 1)
    peakBw :=
      match get "peakBw" with
      | some JValue.null => ""
      | some w => jsToString w
      | none => ""
    peakBwDsc :=
      match get "peakBwDsc" with
      | some JValue.null => ""
      | some w => jsToString w
      | none => ""
    useDsc := match get "useDsc" with | some w => jsTruthy w | none => false
    calcOpen := match get "calcOpen" with | some w => jsTruthy w | none => false
    modeIndex := match get "modeIndex" with | some (JValue.num q) => q | _ => 0
    cvtKind :=
      match get "cvtKind" with
      | some w => if jsTruthy w then jsToString w else "cvt_rb2"
      | none => "cvt_rb2"
    h := h
    v := v
    hz := hz
    hFront := hFront
    hSync := hSync
    hBack := hBack
    vFront := vFront
    vSync := vSync
    vBack := vBack
    bpp := bpp
    bpc := bpc
    colorFormat := importedFormat
    dscRatio := get "dscRatio"
    pixelClock := pixelClock }

/-- One restored row (the arrow function inside `j.timings.map`): a
`null` entry makes the first member access of the callback,
`t.colorFormat` in the type guard, throw `TypeError`; member access on
any other non-object entry reads `undefined` without throwing. -/
def restoreTiming (i : ℕ) (t : JValue) : Except Unit TimingRow :=
  match t with
  | JValue.null => Except.error ()
  | JValue.obj fields => Except.ok (restoreRowFrom i (fun k => lookupField fields k))
  | _ => Except.ok (restoreRowFrom i (fun _ => none))

/-- The indexed map over the whole timings array: a thrown entry aborts
the map (and with it the surrounding try block) wherever it sits, since
`.map` runs over every element before `.slice` is applied. -/
def restoreAll (i : ℕ) : List JValue → Except Unit (List TimingRow)
  | [] => Except.ok []
  | t :: rest =>
      match restoreTiming i t with
      | Except.error e => Except.error e
      | Except.ok r =>
          match restoreAll (i + 1) rest with
          | Except.error e => Except.error e
          | Except.ok rs => Except.ok (r :: rs)

/-- The restored timing list: map with index, then `.slice(0,4)`. -/
def restoredTimingsE (l : List JValue) : Except Unit (List TimingRow) :=
  (restoreAll 0 l).map (fun rows => rows.take 4)

/-- Lane resolution on import: keep an enumerated option, otherwise the
last (largest) entry of `LANE_OPTIONS`. -/
def resolveLanes (importedLanes : Option ℚ) : ℚ :=
  match importedLanes with
  | some q =>
      if LANE_OPTIONS.contains q then q else LANE_OPTIONS.getD (LANE_OPTIONS.length - 1) 0
  | none => LANE_OPTIONS.getD (LANE_OPTIONS.length - 1) 0

/-- `Array.isArray(j.timings)` guard. -/
def hasTimingsArray (j : JValue) : Bool :=
  match jGetD j "timings" with
  | some (JValue.arr _) => true
  | _ => false

/-- `if (j.transport)` guard. -/
def hasTruthyTransport (j : JValue) : Bool :=
  match jGetD j "transport" with
  | some v => jsTruthy v
  | none => false

/-- `typeof j.presetId === "string"` guard. -/
def hasStringPresetId (j : JValue) : Bool :=
  match jGetD j "presetId" with
  | some (JValue.str _) => true
  | _ => false

/-- The `if (j.transport)` block of `onImport`; `s0` is the pre-import
state (whose `rate` feeds the `|| rate` fallback), `s1` the state after
the timings block. -/
def importTransportStage (j : JValue) (s0 s1 : AppState) : AppState :=
  match jGetD j "transport" with
  | some tr =>
      if jsTruthy tr then
        { s1 with
          rate := jsNumOrDefault (jsToNumberOpt (jGetD tr "rate")) s0.rate
          lanes := resolveLanes (jsToNumberOpt (jGetD tr "lanes"))
          coding :=
            match jGetD tr "coding" with
            | some (JValue.str c) => if c = "8b10b" then "8b10b" else "128b/132b"
            | _ => "128b/132b" }
      else s1
  | none => s1

/-- The `if (typeof j.presetId === "string")` block of `onImport`. -/
def importPresetStage (j : JValue) (s2 : AppState) : AppState :=
  match jGetD j "presetId" with
  | some (JValue.str p) => { s2 with presetId := p }
  | _ => s2

/-- `onImport` from the source, on an already-read payload.
`none` stands for a file whose text `JSON.parse` rejects; the returned
flag records whether the `alert` in the catch handler fired. The catch
also receives the `TypeError`s of member access on a null base: a null
payload throws at `j.timings` inside the `Array.isArray` probe, and a
null timings entry throws inside the map callback before `setTimings`
runs — in every thrown case nothing has been applied, so the state is
returned unmodified with the alert flag set. Once `j.timings` has been
read, `j` is known non-null, so the transport and preset accesses on `j`
cannot throw (and accesses on a truthy transport value cannot either). -/
def onImport (payload : Option JValue) (s : AppState) : AppState × Bool :=
  match payload with
  | none => (s, true)
  | some j =>
      match jMember j "timings" with
      | Except.error _ => (s, true)
      | Except.ok tv =>
          match tv with
          | some (JValue.arr l) =>
              match restoredTimingsE l with
              | Except.error _ => (s, true)
              | Except.ok restored =>
                  let s1 := { s with timings :=
                    if restored.isEmpty then [emptyTiming 0] else restored }
                  (importPresetStage j (importTransportStage j s s1), false)
          | _ => (importPresetStage j (importTransportStage j s s), false)

/-- Singleton field list for an optional raw JSON value
(`JSON.stringify` omits `undefined`-valued fields). -/
def optField (k : String) (v : Option JValue) : List (String × JValue) :=
  match v with
  | some x => [(k, x)]
  | none => []

/-- Singleton field list for an optional number. -/
def optNumField (k : String) (v : Option ℚ) : List (String × JValue) :=
  match v with
  | some q => [(k, JValue.num q)]
  | none => []

/-- An always-present numeric field whose value may be `NaN`
(`JSON.stringify` renders `NaN` as `null`). -/
def numOrNullField (v : Option ℚ) : JValue :=
  match v with
  | some q => JValue.num q
  | none => JValue.null

/-- One exported row: the row's own fields plus the derived `peak` and
`peakDsc` of the `parsed` array. -/
def exportTiming (t : TimingRow) : JValue :=
  JValue.obj
    ([("id", JValue.str t.id), ("label", JValue.str t.label),
      ("peakBw", JValue.str t.peakBw), ("peakBwDsc", JValue.str t.peakBwDsc),
      ("useDsc", JValue.bool t.useDsc), ("calcOpen", JValue.bool t.calcOpen),
      ("modeIndex", JValue.num t.modeIndex), ("cvtKind", JValue.str t.cvtKind)]
      ++ optNumField "h" t.h ++ optNumField "v" t.v ++ optNumField "hz" t.hz
      ++ optNumField "hFront" t.hFront ++ optNumField "hSync" t.hSync
      ++ optNumField "hBack" t.hBack ++ optNumField "vFront" t.vFront
      ++ optNumField "vSync" t.vSync ++ optNumField "vBack" t.vBack
      ++ [("bpp", numOrNullField t.bpp), ("bpc", JValue.num t.bpc),
          ("colorFormat", JValue.str t.colorFormat)]
      ++ optField "dscRatio" t.dscRatio
      ++ optNumField "pixelClock" t.pixelClock
      ++ [("peak", JValue.num (jsNumOrZero (jsStringToNumber t.peakBw))),
          ("peakDsc", JValue.num (jsNumOrZero (jsStringToNumber t.peakBwDsc)))])

/-- `exportJson` from the source: the JSON object serialized to the file. -/
def exportJson (s : AppState) : JValue :=
  JValue.obj
    [("timings", JValue.arr (s.timings.map exportTiming)),
     ("transport", JValue.obj
       [("rate", JValue.num s.rate), ("lanes", JValue.num s.lanes),
        ("coding", JValue.str s.coding), ("eff", JValue.num (codingEfficiency s.coding))]),
     ("presetId", JValue.str s.presetId)]

/-- A concrete app state on the HBR3 preset. -/
def sampleState : AppState :=
  ⟨[emptyTiming 0], 81/10, 4, "8b10b", "dp13_hbr3"⟩

/-- A concrete app state on the UHBR20 preset (128b/132b coding). -/
def sampleUhbrState : AppState :=
  ⟨[emptyTiming 0], 20, 4, "128b132b", "dp20_uhbr20"⟩

/-- A rational that is the cast of an integer (every intermediate the
source rounds is shown to be of this shape). -/
def IsInt (x : ℚ) : Prop := ∃ n : ℤ, x = (n : ℚ)

/-- Spec-side vertical sync width selection, stated the way the claim
words it: scan the ordered ratio list, take the first ratio whose rounded
product matches the rounded active width, and map it to its sync width
(10 for every ratio past the first five and for the no-match case);
profile `cvt_rb2` always uses 8. -/
def vSyncWidthClaimed (p : CvtProfile) (activeVLines roundedWidth : ℚ) : ℚ :=
  if p = CvtProfile.cvt_rb2 then 8
  else
    (((([(4/3, 4), (16/9, 5), (16/10, 6), (5/4, 7), (15/9, 7),
        (43/18, 10), (64/27, 10), (12/5, 10)] : List (ℚ × ℚ)).find?
      (fun c => decide (8 * ((⌊activeVLines * c.1 / 8 + 1/2⌋ : ℤ) : ℚ) = roundedWidth))).map
        Prod.snd).getD 10)

/-- The non-`cvt_rb2` width table of the claim, as a map on aspect
bucket names. -/
def widthOfAspect (a : String) : ℚ :=
  if a = "4:3" then 4
  else if a = "16:9" then 5
  else if a = "16:10" then 6
  else if a = "5:4" then 7
  else if a = "15:9" then 7
  else 10

/-- An imported timing object with a non-numeric `bpc` and every other
field absent. -/
def jNoNumerics : JValue := JValue.obj [("bpc", JValue.str "abc")]

/-- The state produced by re-importing an export of `sampleUhbrState`. -/
def reimportedUhbr : AppState :=
  (onImport (some (exportJson sampleUhbrState)) sampleUhbrState).1

/-- The claimed standard-CVT computation, stated step by step the way
claim C5 words it (width rounded down to the granularity 8, optional
1.8% margins, line-time estimate from the 550 µs minimum, vertical
sync+back porch floored against the sync-dependent minimum, duty cycle
from C'=30 and M'=300 clamped to a 20% floor, blank quantized to twice
the granularity, sync at 8% of total pixels, back porch half the blank,
clock quantized down to 0.25 MHz); the sync width `vs` is a parameter. -/
def cvtStandardClaim (h v hz : ℚ) (m : Bool) (vs : ℚ) : CvtTimingResult :=
  let W : ℚ := 8 * ((⌊h / 8⌋ : ℤ) : ℚ)
  let mar : ℚ := if m then 8 * ((⌊W * (18/10) / 100 / 8⌋ : ℤ) : ℚ) else 0
  let A : ℚ := W + 2 * mar
  let vL : ℚ := ((⌊v⌋ : ℤ) : ℚ)
  let tM : ℚ := if m then ((⌊vL * (18/10) / 100⌋ : ℤ) : ℚ) else 0
  let est : ℚ := (1 / hz - 550 / 1000000) / (vL + 2 * tM + 3) * 1000000
  let vsbp : ℚ := max (((⌊550 / est⌋ : ℤ) : ℚ) + 1) (vs + 6)
  let duty : ℚ := max (30 - 300 * est / 1000) 20
  let blank : ℚ := 16 * ((⌊A * duty / (100 - duty) / 16⌋ : ℤ) : ℚ)
  let total : ℚ := A + blank
  let sync : ℚ := 8 * ((⌊8 / 100 * total / 8⌋ : ℤ) : ℚ)
  { pixelClockMHz := 1 / 4 * ((⌊total / est / (1 / 4)⌋ : ℤ) : ℚ)
    hTotal := total
    vTotal := vL + 2 * tM + vsbp + 3
    hBlank := blank
    vBlank := vsbp + 3
    hFront := blank - sync - blank / 2
    hSync := sync
    hBack := blank / 2
    vFront := 3
    vSync := vs
    vBack := vsbp - vs }

/-!
Basic lemmas about the JS rounding models.
-/

theorem jsFloor_intCast (n : ℤ) : jsFloor (n : ℚ) = (n : ℚ) := by
  unfold jsFloor
  rw [Int.floor_intCast]

theorem jsRound_intCast (n : ℤ) : jsRound (n : ℚ) = (n : ℚ) := by
  unfold jsRound
  rw [add_comm, Int.floor_add_int]
  norm_num

theorem isInt_intCast (n : ℤ) : IsInt (n : ℚ) := ⟨n, rfl⟩

theorem isInt_jsFloor (x : ℚ) : IsInt (jsFloor x) := ⟨⌊x⌋, rfl⟩

theorem IsInt.add {x y : ℚ} (hx : IsInt x) (hy : IsInt y) : IsInt (x + y) := by
  obtain ⟨n, rfl⟩ := hx
  obtain ⟨m, rfl⟩ := hy
  exact ⟨n + m, by push_cast; ring⟩

theorem IsInt.sub {x y : ℚ} (hx : IsInt x) (hy : IsInt y) : IsInt (x - y) := by
  obtain ⟨n, rfl⟩ := hx
  obtain ⟨m, rfl⟩ := hy
  exact ⟨n - m, by push_cast; ring⟩

theorem IsInt.mul {x y : ℚ} (hx : IsInt x) (hy : IsInt y) : IsInt (x * y) := by
  obtain ⟨n, rfl⟩ := hx
  obtain ⟨m, rfl⟩ := hy
  exact ⟨n * m, by push_cast; ring⟩

theorem IsInt.ite {x y : ℚ} (c : Prop) [Decidable c] (hx : IsInt x) (hy : IsInt y) :
    IsInt (if c then x else y) := by
  split
  · exact hx
  · exact hy

theorem IsInt.jsRound_eq {x : ℚ} (hx : IsInt x) : jsRound x = x := by
  obtain ⟨n, rfl⟩ := hx
  exact jsRound_intCast n

theorem isInt_vSyncRounded (p : CvtProfile) (a : String) : IsInt (vSyncRounded p a) := by
  unfold vSyncRounded
  split
  · exact ⟨8, by norm_num⟩
  split
  · exact ⟨4, by norm_num⟩
  split
  · exact ⟨5, by norm_num⟩
  split
  · exact ⟨6, by norm_num⟩
  split
  · exact ⟨7, by norm_num⟩
  split
  · exact ⟨7, by norm_num⟩
  · exact ⟨10, by norm_num⟩

/-- C1: the aggregation fit decision holds exactly when the total required
rate is at most the payload capacity plus 1e-9, so equality at the
boundary counts as fitting. -/
theorem fits_iff_total_le_payload_plus_eps (ts : List TimingRow) (payload : ℚ) :
    fits ts payload = true ↔ totalGbps ts ≤ payload + 1/1000000000 := by
  simp [fits]

/-- C10: the aggregate is the sum of the per-row selected rates, and a row
whose selected string field is empty or unparseable contributes exactly 0. -/
theorem unparseable_rate_contributes_zero :
    (∀ ts : List TimingRow, totalGbps ts = (ts.map selectedRate).sum) ∧
    (∀ t : TimingRow,
      (t.useDsc = true →
        (t.peakBwDsc = "" ∨ jsStringToNumber t.peakBwDsc = none) → selectedRate t = 0) ∧
      (t.useDsc = false →
        (t.peakBw = "" ∨ jsStringToNumber t.peakBw = none) → selectedRate t = 0)) := by
  constructor
  · have key : ∀ (l : List TimingRow) (a : ℚ),
        l.foldl (fun s t => s + selectedRate t) a = a + (l.map selectedRate).sum := by
      intro l
      induction l with
      | nil => intro a; simp
      | cons x xs ih => intro a; simp [ih]; ring
    intro ts
    rw [totalGbps, key]
    ring
  · intro t
    constructor
    · intro hu hp
      rcases hp with he | hn
      · simp [selectedRate, hu, he]
        decide
      · simp [selectedRate, hu, hn, jsNumOrZero]
    · intro hu hp
      rcases hp with he | hn
      · simp [selectedRate, hu, he]
        decide
      · simp [selectedRate, hu, hn, jsNumOrZero]

/-- C10 witness: the fresh default row carries an empty DSC rate string
and contributes 0. -/
theorem unparseable_rate_contributes_zero_witness :
    (emptyTiming 0).useDsc = true ∧ (emptyTiming 0).peakBwDsc = "" ∧
    selectedRate (emptyTiming 0) = 0 :=
  ⟨rfl, rfl, (unparseable_rate_contributes_zero.2 (emptyTiming 0)).1 rfl (Or.inl rfl)⟩

theorem restoreTiming_ok_of_ne_null (i : ℕ) {t : JValue} (h : t ≠ JValue.null) :
    ∃ r, restoreTiming i t = Except.ok r := by
  cases t with
  | null => exact absurd rfl h
  | bool b => exact ⟨_, rfl⟩
  | num q => exact ⟨_, rfl⟩
  | str w => exact ⟨_, rfl⟩
  | arr l => exact ⟨_, rfl⟩
  | obj fields => exact ⟨_, rfl⟩

theorem restoreAll_ok {l : List JValue} (i : ℕ) (h : JValue.null ∉ l) :
    ∃ rows, restoreAll i l = Except.ok rows := by
  induction l generalizing i with
  | nil => exact ⟨[], rfl⟩
  | cons t rest ih =>
      have ht : t ≠ JValue.null := by
        intro he
        apply h
        rw [he]
        exact List.mem_cons_self _ _
      obtain ⟨r, hr⟩ := restoreTiming_ok_of_ne_null i ht
      obtain ⟨rs, hrs⟩ := ih (i + 1) (fun hm => h (List.mem_cons_of_mem t hm))
      refine ⟨r :: rs, ?_⟩
      show (match restoreTiming i t with
        | Except.error e => Except.error e
        | Except.ok r =>
            match restoreAll (i + 1) rest with
            | Except.error e => Except.error e
            | Except.ok rs => Except.ok (r :: rs)) = Except.ok (r :: rs)
      rw [hr, hrs]

theorem restoredTimingsE_length {l : List JValue} {rows : List TimingRow}
    (h : restoredTimingsE l = Except.ok rows) : rows.length ≤ 4 := by
  unfold restoredTimingsE at h
  cases hall : restoreAll 0 l with
  | error e =>
      rw [hall] at h
      exact Except.noConfusion h
  | ok allRows =>
      rw [hall] at h
      simp only [Except.map] at h
      cases h
      rw [List.length_take]
      exact min_le_left _ _

/-- C8 (amended): imported timing lists are truncated to at most 4
entries, lane resolution always lands in the enumerated set, adding a
timing preserves the 4-stream bound, and an import whose timings entries
all restore without throwing (no `null` entry in the array) is never
rejected — but a `null` entry makes the restore throw, and the whole
file is rejected by the alert instead of being truncated. -/
theorem bounds_clamping :
    (∀ (l : List JValue) (rows : List TimingRow),
        restoredTimingsE l = Except.ok rows → rows.length ≤ 4) ∧
    (∀ o : Option ℚ, resolveLanes o = 1 ∨ resolveLanes o = 2 ∨ resolveLanes o = 4) ∧
    (∀ ts : List TimingRow, ts.length ≤ 4 → (addTiming ts).length ≤ 4) ∧
    (∀ (j : JValue) (s : AppState), j ≠ JValue.null →
        (∀ l : List JValue, jGetD j "timings" = some (JValue.arr l) → JValue.null ∉ l) →
        (onImport (some j) s).2 = false) := by
  refine ⟨?_, ?_, ?_, ?_⟩
  · intro l rows h
    exact restoredTimingsE_length h
  · intro o
    rcases o with - | q
    · right; right; rfl
    · unfold resolveLanes
      by_cases hq : LANE_OPTIONS.contains q
      · simp only [hq, if_true]
        simp [LANE_OPTIONS, List.contains] at hq
        rcases hq with h | h | h
        · left; exact h
        · right; left; exact h
        · right; right; exact h
      · simp only [hq, if_false]
        right; right; rfl
  · intro ts h
    unfold addTiming
    split
    · rw [List.length_append]
      simp only [List.length_singleton]
      omega
    · exact h
  · intro j s hnn hno
    cases j with
    | null => exact absurd rfl hnn
    | bool b => rfl
    | num q => rfl
    | str w => rfl
    | arr l => rfl
    | obj fields =>
        simp only [onImport, jMember]
        rcases ht : lookupField fields "timings" with - | v
        · rfl
        · cases v with
          | arr l =>
              have hnl : JValue.null ∉ l := by
                apply hno
                simp [jGetD, jMember, ht]
              obtain ⟨rows, hrows⟩ := restoreAll_ok 0 hnl
              have hok : restoredTimingsE l = Except.ok (rows.take 4) := by
                unfold restoredTimingsE
                rw [hrows]
                rfl
              show (match restoredTimingsE l with
                | Except.error _ => (s, true)
                | Except.ok restored =>
                    (importPresetStage (JValue.obj fields)
                      (importTransportStage (JValue.obj fields) s
                        { s with timings :=
                            if restored.isEmpty then [emptyTiming 0] else restored }),
                      false)).2 = false
              rw [hok]
          | null => rfl
          | bool b => rfl
          | num q => rfl
          | str w => rfl
          | obj fs => rfl

/-- C8 witness: a 6-entry import is truncated to 4, an out-of-range lane
count resolves to 4, adding to a 1-entry list stays within bound, and a
null-free import is not rejected. -/
theorem bounds_clamping_witness :
    ((restoredTimingsE (List.replicate 6 (JValue.obj []))).toOption.getD []).length ≤ 4 ∧
    (resolveLanes (some 7) = 1 ∨ resolveLanes (some 7) = 2 ∨ resolveLanes (some 7) = 4) ∧
    (addTiming [emptyTiming 0]).length ≤ 4 ∧
    (onImport (some (JValue.obj [])) sampleState).2 = false :=
  ⟨bounds_clamping.1 (List.replicate 6 (JValue.obj []))
      ((restoredTimingsE (List.replicate 6 (JValue.obj []))).toOption.getD []) rfl,
    bounds_clamping.2.1 (some 7),
    bounds_clamping.2.2.1 [emptyTiming 0] (by simp),
    bounds_clamping.2.2.2 (JValue.obj []) sampleState
      (fun h => JValue.noConfusion h) (fun l h => Option.noConfusion h)⟩

/-- C8 counterexample: the valid-JSON payload
`{"timings":[null,null,null,null,null]}` attempts to exceed the
4-stream bound, but instead of being truncated it is rejected outright:
restoring the first `null` entry throws `TypeError`, the catch handler
alerts, and the state is left unmodified. -/
theorem bounds_violating_import_rejected :
    [JValue.null, JValue.null, JValue.null, JValue.null, JValue.null].length = 5 ∧
    restoredTimingsE [JValue.null, JValue.null, JValue.null, JValue.null, JValue.null] =
      Except.error () ∧
    onImport (some (JValue.obj [("timings",
        JValue.arr [JValue.null, JValue.null, JValue.null, JValue.null, JValue.null])]))
      sampleState = (sampleState, true) :=
  ⟨rfl, rfl, rfl⟩

theorem importTransportStage_skip {j : JValue} {s0 s1 : AppState}
    (h2 : hasTruthyTransport j = false) : importTransportStage j s0 s1 = s1 := by
  unfold importTransportStage
  unfold hasTruthyTransport at h2
  cases ht : jGetD j "transport" with
  | none => rfl
  | some tr =>
      rw [ht] at h2
      simp only [] at h2
      simp [h2]

theorem importPresetStage_skip {j : JValue} {s2 : AppState}
    (h3 : hasStringPresetId j = false) : importPresetStage j s2 = s2 := by
  unfold importPresetStage
  unfold hasStringPresetId at h3
  cases ht : jGetD j "presetId" with
  | none => rfl
  | some v =>
      rw [ht] at h3
      cases v
      case str => simp at h3
      all_goals rfl

/-- C2 counterexample: the payload `{}` is valid JSON that lacks the
expected shape, and importing it leaves the state unmodified but raises
no user-visible error (the alert flag stays false), contradicting the
claim that structural shape failures are reported. -/
theorem import_shape_lacking_no_alert :
    hasTimingsArray (JValue.obj []) = false ∧
    (onImport (some (JValue.obj [])) sampleState).1 = sampleState ∧
    (onImport (some (JValue.obj [])) sampleState).2 = false :=
  ⟨rfl, rfl, rfl⟩

/-- C2 (amended): an import whose text is not valid JSON, or whose parsed
payload is `null` (where the `Array.isArray(j.timings)` probe itself
throws `TypeError`), reports the user-visible error and leaves the state
unmodified; any other valid-JSON payload lacking all of the expected
shape (no timings array, no truthy transport, no string presetId) also
leaves the state unmodified but reports no error. -/
theorem import_structural_failure_behavior (s : AppState) (j : JValue)
    (hnn : j ≠ JValue.null)
    (h1 : hasTimingsArray j = false) (h2 : hasTruthyTransport j = false)
    (h3 : hasStringPresetId j = false) :
    onImport none s = (s, true) ∧
    onImport (some JValue.null) s = (s, true) ∧
    onImport (some j) s = (s, false) := by
  refine ⟨rfl, rfl, ?_⟩
  cases j with
  | null => exact absurd rfl hnn
  | bool b =>
      show (importPresetStage (JValue.bool b)
        (importTransportStage (JValue.bool b) s s), false) = (s, false)
      rw [importTransportStage_skip h2, importPresetStage_skip h3]
  | num q =>
      show (importPresetStage (JValue.num q)
        (importTransportStage (JValue.num q) s s), false) = (s, false)
      rw [importTransportStage_skip h2, importPresetStage_skip h3]
  | str w =>
      show (importPresetStage (JValue.str w)
        (importTransportStage (JValue.str w) s s), false) = (s, false)
      rw [importTransportStage_skip h2, importPresetStage_skip h3]
  | arr l =>
      show (importPresetStage (JValue.arr l)
        (importTransportStage (JValue.arr l) s s), false) = (s, false)
      rw [importTransportStage_skip h2, importPresetStage_skip h3]
  | obj fields =>
      simp only [onImport, jMember]
      rcases ht : lookupField fields "timings" with - | v
      · show (importPresetStage (JValue.obj fields)
          (importTransportStage (JValue.obj fields) s s), false) = (s, false)
        rw [importTransportStage_skip h2, importPresetStage_skip h3]
      · cases v with
        | arr l => exact absurd h1 (by simp [hasTimingsArray, jGetD, jMember, ht])
        | null =>
            show (importPresetStage (JValue.obj fields)
              (importTransportStage (JValue.obj fields) s s), false) = (s, false)
            rw [importTransportStage_skip h2, importPresetStage_skip h3]
        | bool b =>
            show (importPresetStage (JValue.obj fields)
              (importTransportStage (JValue.obj fields) s s), false) = (s, false)
            rw [importTransportStage_skip h2, importPresetStage_skip h3]
        | num q =>
            show (importPresetStage (JValue.obj fields)
              (importTransportStage (JValue.obj fields) s s), false) = (s, false)
            rw [importTransportStage_skip h2, importPresetStage_skip h3]
        | str w =>
            show (importPresetStage (JValue.obj fields)
              (importTransportStage (JValue.obj fields) s s), false) = (s, false)
            rw [importTransportStage_skip h2, importPresetStage_skip h3]
        | obj fs =>
            show (importPresetStage (JValue.obj fields)
              (importTransportStage (JValue.obj fields) s s), false) = (s, false)
            rw [importTransportStage_skip h2, importPresetStage_skip h3]

/-- C2 witness: the amended behavior at the concrete payload `{}`. -/
theorem import_structural_failure_behavior_witness :
    onImport none sampleState = (sampleState, true) ∧
    onImport (some JValue.null) sampleState = (sampleState, true) ∧
    onImport (some (JValue.obj [])) sampleState = (sampleState, false) :=
  import_structural_failure_behavior sampleState (JValue.obj [])
    (fun h => JValue.noConfusion h) rfl rfl rfl

/-- C3 counterexample: importing a timing object with no `dscRatio` field
restores without throwing, but leaves the restored row's `dscRatio`
unset; it is not replaced by the documented default 3 at import time. -/
theorem import_dscRatio_passthrough_counterexample :
    restoreTiming 0 (JValue.obj []) =
      Except.ok (restoreRowFrom 0 (fun k => lookupField [] k)) ∧
    (restoreRowFrom 0 (fun k => lookupField [] k)).dscRatio = none ∧
    (restoreRowFrom 0 (fun k => lookupField [] k)).dscRatio ≠ some (JValue.num 3) := by
  refine ⟨rfl, rfl, ?_⟩
  intro h
  exact Option.noConfusion h

/-- C3 (amended): for a timing entry on which member access does not
throw, an absent or non-numeric numeric field is resolved without error —
`bpc` becomes 8, the color format becomes RGB, `h` (and the other H/V/Hz
totals) is left unset, and an absent lane count resolves to the largest
enumerated option — while `dscRatio` is copied through unchanged (the
default 3 is substituted only at the point of use); a `null` entry,
however, throws on its first member access and aborts the whole import
with the alert. -/
theorem import_numeric_defaults (i : ℕ) (g : String → Option JValue)
    (hbpc : jsToNumberOpt (g "bpc") = none)
    (hcf : ∀ s, g "colorFormat" ≠ some (JValue.str s))
    (hh : jsToNumberOpt (g "h") = none)
    (hd : g "dscRatio" = none) :
    (restoreRowFrom i g).bpc = DEFAULT_BPC ∧
    (restoreRowFrom i g).colorFormat = "rgb" ∧
    (restoreRowFrom i g).h = none ∧
    (restoreRowFrom i g).dscRatio = g "dscRatio" ∧
    effectiveDscRatio (restoreRowFrom i g) = 3 ∧
    resolveLanes none = 4 ∧
    (∀ fields : List (String × JValue),
        restoreTiming i (JValue.obj fields) =
          Except.ok (restoreRowFrom i (fun k => lookupField fields k))) ∧
    restoreTiming i JValue.null = Except.error () := by
  refine ⟨?_, ?_, ?_, rfl, ?_, rfl, fun fields => rfl, rfl⟩
  · show (match jsToNumberOpt (g "bpc") with
      | some q => if 0 < q then q else DEFAULT_BPC
      | none => DEFAULT_BPC) = DEFAULT_BPC
    rw [hbpc]
  · show (match g "colorFormat" with
      | some (JValue.str s) =>
          if (COLOR_FORMATS.find? (fun c => decide (c.1 = s))).isSome
              || OBJECT_PROTOTYPE_KEYS.contains s then s
          else "rgb"
      | _ => "rgb") = "rgb"
    cases hc : g "colorFormat" with
    | none => rfl
    | some v =>
        cases v
        case str s => exact absurd hc (hcf s)
        all_goals rfl
  · show jsToNumberOpt (g "h") = none
    exact hh
  · show effectiveDscRatio (restoreRowFrom i g) = 3
    unfold effectiveDscRatio
    have hdr : (restoreRowFrom i g).dscRatio = none := hd
    rw [hdr]

/-- C3 witness: the amended behavior at a concrete object whose `bpc` is
the non-numeric string "abc" and whose other fields are absent. -/
theorem import_numeric_defaults_witness :
    (restoreRowFrom 0 (fun k => lookupField [("bpc", JValue.str "abc")] k)).bpc
      = DEFAULT_BPC ∧
    (restoreRowFrom 0 (fun k => lookupField [("bpc", JValue.str "abc")] k)).colorFormat
      = "rgb" ∧
    (restoreRowFrom 0 (fun k => lookupField [("bpc", JValue.str "abc")] k)).h = none ∧
    (restoreRowFrom 0 (fun k => lookupField [("bpc", JValue.str "abc")] k)).dscRatio
      = lookupField [("bpc", JValue.str "abc")] "dscRatio" ∧
    effectiveDscRatio (restoreRowFrom 0 (fun k => lookupField [("bpc", JValue.str "abc")] k))
      = 3 ∧
    resolveLanes none = 4 ∧
    restoreTiming 0 (JValue.obj [("bpc", JValue.str "abc")]) =
      Except.ok (restoreRowFrom 0 (fun k => lookupField [("bpc", JValue.str "abc")] k)) ∧
    restoreTiming 0 JValue.null = Except.error () := by
  obtain ⟨a, b, c, d, e, f, g, h⟩ := import_numeric_defaults 0
    (fun k => lookupField [("bpc", JValue.str "abc")] k)
    (by decide) (by intro w hw; exact Option.noConfusion hw) rfl rfl
  exact ⟨a, b, c, d, e, f, g [("bpc", JValue.str "abc")], h⟩

/-- C4 (code bug witnessed): re-importing an export of a state whose
coding is "128b132b" reproduces the generation profile, resolution,
refresh, all six blanking fields and the selected-rate fields of every
timing, as well as rate, lanes and presetId — but the transport coding
comes back as the malformed string "128b/132b" (written through an
`as any` cast), so the §6 layout does not round-trip losslessly. -/
theorem export_import_coding_mangled :
    sampleUhbrState.coding = "128b132b" ∧
    reimportedUhbr.coding = "128b/132b" ∧
    reimportedUhbr.coding ≠ sampleUhbrState.coding ∧
    reimportedUhbr.rate = sampleUhbrState.rate ∧
    reimportedUhbr.lanes = sampleUhbrState.lanes ∧
    reimportedUhbr.presetId = sampleUhbrState.presetId ∧
    reimportedUhbr.timings.map (fun t => (t.cvtKind, t.h, t.v, t.hz)) =
      sampleUhbrState.timings.map (fun t => (t.cvtKind, t.h, t.v, t.hz)) ∧
    reimportedUhbr.timings.map
        (fun t => (t.hFront, t.hSync, t.hBack, t.vFront, t.vSync, t.vBack)) =
      sampleUhbrState.timings.map
        (fun t => (t.hFront, t.hSync, t.hBack, t.vFront, t.vSync, t.vBack)) ∧
    reimportedUhbr.timings.map (fun t => (t.peakBw, t.peakBwDsc, t.useDsc)) =
      sampleUhbrState.timings.map (fun t => (t.peakBw, t.peakBwDsc, t.useDsc)) :=
  ⟨rfl, rfl, by decide, rfl, rfl, rfl, rfl, rfl, rfl⟩

theorem jsRound_add3_eq {a b c d : ℚ} (ha : IsInt a) (hb : IsInt b) (hc : IsInt c)
    (hd : IsInt d) (h : a + b + c = d) :
    jsRound a + jsRound b + jsRound c = jsRound d := by
  rw [ha.jsRound_eq, hb.jsRound_eq, hc.jsRound_eq, hd.jsRound_eq]
  exact h

theorem isInt_ite_floorMul_div2 (c : Prop) [Decidable c] {g : ℚ} (e1 e2 : ℚ)
    (hg : IsInt g) :
    IsInt ((if c then jsFloor e1 * (2 * g) else jsFloor e2 * (2 * g)) / 2) := by
  obtain ⟨k, rfl⟩ := hg
  split
  · exact ⟨⌊e1⌋ * k, by unfold jsFloor; push_cast; ring⟩
  · exact ⟨⌊e2⌋ * k, by unfold jsFloor; push_cast; ring⟩

theorem cellGran_eval : jsFloor CVT_CELL_GRAN = 8 := by
  norm_num [jsFloor, CVT_CELL_GRAN]


theorem isInt_lit_one : IsInt (1 : ℚ) := ⟨1, by norm_num⟩

theorem isInt_lit_two : IsInt (2 : ℚ) := ⟨2, by norm_num⟩

theorem isInt_lit_three : IsInt (3 : ℚ) := ⟨3, by norm_num⟩

theorem isInt_lit_six : IsInt (6 : ℚ) := ⟨6, by norm_num⟩

theorem isInt_lit_forty : IsInt (40 : ℚ) := ⟨40, by norm_num⟩

theorem isInt_lit_eighty : IsInt (80 : ℚ) := ⟨80, by norm_num⟩

theorem isInt_min_v_porch : IsInt CVT_MIN_V_PORCH := ⟨3, by norm_num [CVT_MIN_V_PORCH]⟩

theorem isInt_min_v_bporch : IsInt CVT_MIN_V_BPORCH := ⟨6, by norm_num [CVT_MIN_V_BPORCH]⟩

theorem cvtBranch_sums (cp : ClockParams) (cg A vlr tm bm ifac f vs : ℚ)
    (hcg : IsInt cg) (hvs : IsInt vs) :
    (jsRound (cvtBranch cp cg A vlr tm bm ifac f vs).hFrontPorch +
        jsRound (cvtBranch cp cg A vlr tm bm ifac f vs).hSync +
        jsRound (cvtBranch cp cg A vlr tm bm ifac f vs).hBackPorch =
      jsRound (cvtBranch cp cg A vlr tm bm ifac f vs).hBlank) ∧
    (jsRound (cvtBranch cp cg A vlr tm bm ifac f vs).vFrontPorch + jsRound vs +
        jsRound (cvtBranch cp cg A vlr tm bm ifac f vs).vBackPorch =
      jsRound (cvtBranch cp cg A vlr tm bm ifac f vs).vBlank) := by
  simp only [cvtBranch]
  constructor <;>
    refine jsRound_add3_eq ?_ ?_ ?_ ?_ (by ring) <;>
    repeat
      first
      | assumption
      | exact isInt_jsFloor _
      | apply isInt_ite_floorMul_div2 _ _ _ hcg
      | apply IsInt.ite
      | apply IsInt.add
      | apply IsInt.sub
      | apply IsInt.mul
      | exact isInt_lit_one
      | exact isInt_lit_two
      | exact isInt_min_v_porch
      | exact isInt_min_v_bporch

theorem rbBranch_sums (p : CvtProfile) (cp : ClockParams) (A vlr tm bm ifac f vs : ℚ)
    (hfp : IsInt cp.rbVFrontPorch) (hhb : IsInt cp.rbHBlank) (hhs : IsInt cp.rbHSync)
    (hvs : IsInt vs) :
    (jsRound (rbBranch p cp A vlr tm bm ifac f vs).hFrontPorch +
        jsRound (rbBranch p cp A vlr tm bm ifac f vs).hSync +
        jsRound (rbBranch p cp A vlr tm bm ifac f vs).hBackPorch =
      jsRound (rbBranch p cp A vlr tm bm ifac f vs).hBlank) ∧
    (jsRound (rbBranch p cp A vlr tm bm ifac f vs).vFrontPorch + jsRound vs +
        jsRound (rbBranch p cp A vlr tm bm ifac f vs).vBackPorch =
      jsRound (rbBranch p cp A vlr tm bm ifac f vs).vBlank) := by
  simp only [rbBranch]
  by_cases hp : p = CvtProfile.cvt_rb2 <;>
    simp only [hp, if_true, if_false] <;>
    constructor <;>
    refine jsRound_add3_eq ?_ ?_ ?_ ?_ (by ring) <;>
    repeat
      first
      | assumption
      | exact isInt_jsFloor _
      | apply IsInt.ite
      | apply IsInt.add
      | apply IsInt.sub
      | apply IsInt.mul
      | exact isInt_lit_one
      | exact isInt_lit_three
      | exact isInt_lit_six
      | exact isInt_min_v_bporch
      | exact isInt_lit_forty
      | exact isInt_lit_eighty

theorem isInt_clockParams_rbVFrontPorch (p : CvtProfile) (vo : Bool) :
    IsInt (clockParams p vo).rbVFrontPorch := by
  cases p
  · exact ⟨3, by norm_num [clockParams]⟩
  · exact ⟨3, by norm_num [clockParams]⟩
  · exact ⟨1, by norm_num [clockParams]⟩

theorem isInt_clockParams_rbHBlank (p : CvtProfile) (vo : Bool) :
    IsInt (clockParams p vo).rbHBlank := by
  cases p
  · exact ⟨160, by norm_num [clockParams]⟩
  · exact ⟨160, by norm_num [clockParams]⟩
  · exact ⟨80, by norm_num [clockParams]⟩

theorem isInt_clockParams_rbHSync (p : CvtProfile) (vo : Bool) :
    IsInt (clockParams p vo).rbHSync := by
  cases p
  · exact ⟨32, by norm_num [clockParams]⟩
  · exact ⟨32, by norm_num [clockParams]⟩
  · exact ⟨32, by norm_num [clockParams]⟩

/-- C9: in every generated timing the porch/sync components sum to the
blanking totals, horizontally and vertically. -/
theorem blanking_components_sum (h v hz : ℚ) (p : CvtProfile) (m il vo : Bool)
    (hh : 0 < h) (hv : 0 < v) (hhz : 0 < hz) :
    (calculateCvtTiming h v hz p m il vo).hFront + (calculateCvtTiming h v hz p m il vo).hSync +
        (calculateCvtTiming h v hz p m il vo).hBack =
      (calculateCvtTiming h v hz p m il vo).hBlank ∧
    (calculateCvtTiming h v hz p m il vo).vFront + (calculateCvtTiming h v hz p m il vo).vSync +
        (calculateCvtTiming h v hz p m il vo).vBack =
      (calculateCvtTiming h v hz p m il vo).vBlank := by
  cases p
  case cvt =>
    exact cvtBranch_sums _ _ _ _ _ _ _ _ _ (isInt_jsFloor _) (isInt_vSyncRounded _ _)
  case cvt_rb =>
    exact rbBranch_sums _ _ _ _ _ _ _ _ _ (isInt_clockParams_rbVFrontPorch _ _)
      (isInt_clockParams_rbHBlank _ _) (isInt_clockParams_rbHSync _ _) (isInt_vSyncRounded _ _)
  case cvt_rb2 =>
    exact rbBranch_sums _ _ _ _ _ _ _ _ _ (isInt_clockParams_rbVFrontPorch _ _)
      (isInt_clockParams_rbHBlank _ _) (isInt_clockParams_rbHSync _ _) (isInt_vSyncRounded _ _)

/-- C9 witness: the component sums at 1920×1080\@60, standard CVT. -/
theorem blanking_components_sum_witness :
    (calculateCvtTiming 1920 1080 60 CvtProfile.cvt false false false).hFront +
        (calculateCvtTiming 1920 1080 60 CvtProfile.cvt false false false).hSync +
        (calculateCvtTiming 1920 1080 60 CvtProfile.cvt false false false).hBack =
      (calculateCvtTiming 1920 1080 60 CvtProfile.cvt false false false).hBlank ∧
    (calculateCvtTiming 1920 1080 60 CvtProfile.cvt false false false).vFront +
        (calculateCvtTiming 1920 1080 60 CvtProfile.cvt false false false).vSync +
        (calculateCvtTiming 1920 1080 60 CvtProfile.cvt false false false).vBack =
      (calculateCvtTiming 1920 1080 60 CvtProfile.cvt false false false).vBlank :=
  blanking_components_sum 1920 1080 60 CvtProfile.cvt false false false
    (by norm_num) (by norm_num) (by norm_num)

theorem isInt_lit_eight : IsInt (8 : ℚ) := ⟨8, by norm_num⟩

theorem isInt_lit_onesixty : IsInt (160 : ℚ) := ⟨160, by norm_num⟩

theorem rb_clock_eq4 (x L P : ℚ) (hL : IsInt L) (hP : IsInt P) :
    jsFloor (x * L * P * 4 / 1000000) / 4 =
      4⁻¹ * ((⌊x * jsRound L * jsRound P / 1000000 * 4⌋ : ℤ) : ℚ) := by
  rw [hL.jsRound_eq, hP.jsRound_eq]
  unfold jsFloor
  rw [show x * L * P * 4 / 1000000 = x * L * P / 1000000 * 4 from by ring]
  ring

theorem rb_clock_eq1000 (x L P m : ℚ) (hL : IsInt L) (hP : IsInt P) :
    jsFloor (x * L * P * 1000 / 1000000) * m / 1000 =
      1000⁻¹ * ((⌊x * jsRound L * jsRound P / 1000000 * 1000⌋ : ℤ) : ℚ) * m := by
  rw [hL.jsRound_eq, hP.jsRound_eq]
  unfold jsFloor
  rw [show x * L * P * 1000 / 1000000 = x * L * P / 1000000 * 1000 from by ring]
  ring

theorem rb_clock_eq1000m1 (x L P : ℚ) (hL : IsInt L) (hP : IsInt P) :
    jsFloor (x * L * P * 1000 / 1000000) / 1000 =
      1000⁻¹ * ((⌊x * jsRound L * jsRound P / 1000000 * 1000⌋ : ℤ) : ℚ) := by
  rw [hL.jsRound_eq, hP.jsRound_eq]
  unfold jsFloor
  rw [show x * L * P * 1000 / 1000000 = x * L * P / 1000000 * 1000 from by ring]
  ring

/-- C6: in the reduced-blanking branches the horizontal blank is the
profile constant (80 for cvt_rb2, 160 for cvt_rb), and the pixel clock is
field rate × total lines × total pixels in MHz quantized down to the
profile's clock step (0.001 for cvt_rb2, 0.25 for cvt_rb), scaled by
1000/1001 exactly when the profile is cvt_rb2 and video_optimized is set
(cvt_rb is never scaled). -/
theorem reduced_blanking_clock_quantization (h v hz : ℚ) (p : CvtProfile) (vo : Bool)
    (hp : p ≠ CvtProfile.cvt) (hh : 0 < h) (hv : 0 < v) (hhz : 0 < hz) :
    (calculateCvtTiming h v hz p false false vo).hBlank =
      (if p = CvtProfile.cvt_rb2 then 80 else 160) ∧
    (calculateCvtTiming h v hz p false false vo).pixelClockMHz =
      (if p = CvtProfile.cvt_rb2 then (1:ℚ)/1000 else 1/4) *
        ((⌊(hz * (calculateCvtTiming h v hz p false false vo).vTotal *
            (calculateCvtTiming h v hz p false false vo).hTotal / 1000000) /
            (if p = CvtProfile.cvt_rb2 then (1:ℚ)/1000 else 1/4)⌋ : ℤ) : ℚ) *
        (if p = CvtProfile.cvt_rb2 ∧ vo = true then (1000:ℚ)/1001 else 1) := by
  cases p
  case cvt => exact absurd rfl hp
  case cvt_rb =>
    simp [calculateCvtTiming, rbBranch, clockParams, cellGran_eval]
    constructor
    · norm_num [jsRound]
    · refine rb_clock_eq4 hz _ _ ?_ ?_ <;>
      repeat
        first
        | exact isInt_jsFloor _
        | exact isInt_vSyncRounded _ _
        | apply IsInt.ite
        | apply IsInt.add
        | apply IsInt.sub
        | apply IsInt.mul
        | exact isInt_lit_one
        | exact isInt_lit_three
        | exact isInt_min_v_bporch
        | exact isInt_lit_onesixty
        | exact isInt_lit_eight
  case cvt_rb2 =>
    simp [calculateCvtTiming, rbBranch, clockParams, cellGran_eval]
    constructor
    · norm_num [jsRound]
    · by_cases hvo : vo = true <;>
        simp only [hvo, if_true, if_false] <;>
        [refine rb_clock_eq1000 hz _ _ (1000/1001 : ℚ) ?_ ?_;
         refine rb_clock_eq1000m1 hz _ _ ?_ ?_] <;>
        repeat
          first
          | exact isInt_jsFloor _
          | exact isInt_vSyncRounded _ _
          | apply IsInt.ite
          | apply IsInt.add
          | apply IsInt.sub
          | apply IsInt.mul
          | exact isInt_lit_one
          | exact isInt_min_v_bporch
          | exact isInt_lit_eighty
          | exact isInt_lit_eight

/-- C6 witness: the quantization law at 3840×2160\@144, cvt_rb2, with the
video-optimized multiplier off. -/
theorem reduced_blanking_clock_quantization_witness :
    (calculateCvtTiming 3840 2160 144 CvtProfile.cvt_rb2 false false false).hBlank =
      (if CvtProfile.cvt_rb2 = CvtProfile.cvt_rb2 then 80 else 160) ∧
    (calculateCvtTiming 3840 2160 144 CvtProfile.cvt_rb2 false false false).pixelClockMHz =
      (if CvtProfile.cvt_rb2 = CvtProfile.cvt_rb2 then (1:ℚ)/1000 else 1/4) *
        ((⌊((144:ℚ) * (calculateCvtTiming 3840 2160 144 CvtProfile.cvt_rb2 false false false).vTotal *
            (calculateCvtTiming 3840 2160 144 CvtProfile.cvt_rb2 false false false).hTotal / 1000000) /
            (if CvtProfile.cvt_rb2 = CvtProfile.cvt_rb2 then (1:ℚ)/1000 else 1/4)⌋ : ℤ) : ℚ) *
        (if CvtProfile.cvt_rb2 = CvtProfile.cvt_rb2 ∧ false = true then (1000:ℚ)/1001 else 1) :=
  reduced_blanking_clock_quantization 3840 2160 144 CvtProfile.cvt_rb2 false
    (by decide) (by decide) (by decide) (by decide)

theorem vSyncRounded_ne_rb2 {p : CvtProfile} (hp : p ≠ CvtProfile.cvt_rb2) (a : String) :
    vSyncRounded p a = widthOfAspect a := by
  unfold vSyncRounded widthOfAspect
  simp [hp]

theorem widthOfAspect_aspectRatio (cg vp W : ℚ) :
    widthOfAspect (aspectRatio cg vp W) =
      (((aspectCandidates.find?
          (fun c => decide (cg * jsRound (vp * c.2 / cg) = W))).map
        (fun c => widthOfAspect c.1)).getD 10) := by
  unfold aspectRatio
  rcases ho : aspectCandidates.find? (fun c => decide (cg * jsRound (vp * c.2 / cg) = W)) with - | c
  · rw [ho]
    rfl
  · rw [ho]
    rfl

theorem find_width_chain (vp W : ℚ) (l : List (String × ℚ)) :
    (((l.find? (fun c => decide (8 * jsRound (vp * c.2 / 8) = W))).map
        (fun c => widthOfAspect c.1)).getD 10) =
      ((((l.map (fun c => (c.2, widthOfAspect c.1))).find?
          (fun c => decide (8 * ((⌊vp * c.1 / 8 + 1/2⌋ : ℤ) : ℚ) = W))).map
        Prod.snd).getD 10) := by
  induction l with
  | nil => rfl
  | cons a t ih =>
      simp only [List.map_cons, List.find?_cons]
      have e : (decide (8 * ((⌊vp * a.2 / 8 + 1/2⌋ : ℤ) : ℚ) = W)) =
          (decide (8 * jsRound (vp * a.2 / 8) = W)) := rfl
      rw [e]
      cases hd : decide (8 * jsRound (vp * a.2 / 8) = W)
      · simpa using ih
      · rfl

theorem vsync_selection_key (p : CvtProfile) (vp W : ℚ) :
    vSyncRounded p (aspectRatio 8 vp W) = vSyncWidthClaimed p vp W := by
  by_cases hp : p = CvtProfile.cvt_rb2
  · subst hp
    unfold vSyncRounded vSyncWidthClaimed
    simp
  · rw [vSyncRounded_ne_rb2 hp, widthOfAspect_aspectRatio, find_width_chain]
    unfold vSyncWidthClaimed
    simp only [hp, if_false]
    rfl

/-- C7: the generated vertical sync width is 8 for cvt_rb2; otherwise it
is found by scanning the ordered ratio list 4:3, 16:9, 16:10, 5:4, 15:9,
43:18, 64:27, 12:5, taking the first ratio whose rounded product with the
active line count matches the rounded active width, mapped to the widths
4, 5, 6, 7, 7 for the first five ratios and 10 otherwise (including the
Unknown bucket) — never an error. -/
theorem vsync_width_selection (p : CvtProfile) (hn vn : ℕ) (hz : ℚ) :
    (calculateCvtTiming (hn : ℚ) (vn : ℚ) hz p false false false).vSync =
      vSyncWidthClaimed p (vn : ℚ) (8 * ((⌊(hn : ℚ) / 8⌋ : ℤ) : ℚ)) := by
  show jsRound (vSyncRounded p (aspectRatio (jsFloor CVT_CELL_GRAN) (jsFloor (vn : ℚ))
      (jsFloor ((hn : ℚ) / jsFloor CVT_CELL_GRAN) * jsFloor CVT_CELL_GRAN))) =
    vSyncWidthClaimed p (vn : ℚ) (8 * ((⌊(hn : ℚ) / 8⌋ : ℤ) : ℚ))
  rw [cellGran_eval]
  rw [(isInt_vSyncRounded _ _).jsRound_eq]
  have e1 : jsFloor ((vn : ℕ) : ℚ) = ((vn : ℕ) : ℚ) := by
    unfold jsFloor
    norm_num
  have e2 : jsFloor ((hn : ℚ) / 8) * 8 = 8 * ((⌊(hn : ℚ) / 8⌋ : ℤ) : ℚ) := by
    unfold jsFloor
    ring
  rw [e1, e2]
  exact vsync_selection_key p _ _

theorem isInt_max {x y : ℚ} (hx : IsInt x) (hy : IsInt y) : IsInt (max x y) := by
  obtain ⟨n, rfl⟩ := hx
  obtain ⟨k, rfl⟩ := hy
  refine ⟨Max.max n k, ?_⟩
  rw [Int.cast_max]

theorem jsRound_eq_of_isInt {x y : ℚ} (hx : IsInt x) (h : x = y) : jsRound x = y := by
  rw [hx.jsRound_eq, h]

theorem ite_lt_eq_max (a b : ℚ) : (if a < b then b else a) = max a b := by
  rcases lt_or_le a b with hc | hc
  · rw [if_pos hc, max_eq_right hc.le]
  · rw [if_neg (not_lt.2 hc), max_eq_left hc]

theorem isInt_mul_sixteen_div_two {x : ℚ} (hx : IsInt x) : IsInt (x * (2 * 8) / 2) := by
  obtain ⟨n, rfl⟩ := hx
  exact ⟨n * 8, by push_cast; ring⟩

set_option maxHeartbeats 2000000 in
/-- C5: for positive inputs the standard-CVT branch computes exactly the
claimed step sequence, packaged as the claim-side generator
`cvtStandardClaim` evaluated at the generator's own sync width. -/
theorem cvt_standard_branch_steps (h v hz : ℚ) (m : Bool)
    (hh : 0 < h) (hv : 0 < v) (hhz : 0 < hz) :
    calculateCvtTiming h v hz CvtProfile.cvt m false false =
      cvtStandardClaim h v hz m (calculateCvtTiming h v hz CvtProfile.cvt m false false).vSync := by
  simp [calculateCvtTiming, cvtBranch, clockParams, cellGran_eval, cvtStandardClaim,
    CVT_MARGIN_PERCENT, CVT_MIN_VSYNC_BP, CVT_MIN_V_PORCH, CVT_C_PRIME, CVT_M_PRIME,
    CVT_HSYNC_PERCENT, CVT_MIN_V_BPORCH, CvtTimingResult.mk.injEq]
  simp only [jsFloor]
  rw [(isInt_vSyncRounded CvtProfile.cvt
    (aspectRatio 8 ((⌊v⌋ : ℤ) : ℚ) (((⌊h / 8⌋ : ℤ) : ℚ) * 8))).jsRound_eq]
  rw [ite_lt_eq_max]
  by_cases hd : 30 - 300 * ((hz⁻¹ - 550 / 1000000) /
      ((((⌊v⌋ : ℤ) : ℚ) + if m = true then 2 * ((⌊((⌊v⌋ : ℤ) : ℚ) * (18 / 10) / 100⌋ : ℤ) : ℚ) else 0) + 3) *
      1000000) / 1000 < 20
  · rw [if_pos hd, max_eq_right hd.le]
    refine ⟨?_, ?_, ?_, ?_, ?_, ?_, ?_, ?_, ?_, ?_⟩ <;>
      first
      | (refine jsRound_eq_of_isInt ?_ ?_
         · repeat
             first
             | exact isInt_intCast _
             | exact isInt_vSyncRounded _ _
             | apply isInt_max
             | apply isInt_mul_sixteen_div_two
             | apply IsInt.ite
             | apply IsInt.add
             | apply IsInt.sub
             | apply IsInt.mul
             | exact isInt_lit_one
             | exact isInt_lit_two
             | exact isInt_lit_three
             | exact isInt_lit_six
             | exact isInt_lit_eight
         · ring_nf
           try simp only [ite_mul, mul_ite, zero_mul, mul_zero]
           try ring_nf)
      | ring_nf
  · rw [if_neg hd, max_eq_left (not_lt.1 hd)]
    refine ⟨?_, ?_, ?_, ?_, ?_, ?_, ?_, ?_, ?_, ?_⟩ <;>
      first
      | (refine jsRound_eq_of_isInt ?_ ?_
         · repeat
             first
             | exact isInt_intCast _
             | exact isInt_vSyncRounded _ _
             | apply isInt_max
             | apply isInt_mul_sixteen_div_two
             | apply IsInt.ite
             | apply IsInt.add
             | apply IsInt.sub
             | apply IsInt.mul
             | exact isInt_lit_one
             | exact isInt_lit_two
             | exact isInt_lit_three
             | exact isInt_lit_six
             | exact isInt_lit_eight
         · ring_nf
           try simp only [ite_mul, mul_ite, zero_mul, mul_zero]
           try ring_nf)
      | ring_nf

/-- C5 witness: the step law at 1920×1080\@60 without margins. -/
theorem cvt_standard_branch_steps_witness :
    calculateCvtTiming 1920 1080 60 CvtProfile.cvt false false false =
      cvtStandardClaim 1920 1080 60 false
        (calculateCvtTiming 1920 1080 60 CvtProfile.cvt false false false).vSync :=
  cvt_standard_branch_steps 1920 1080 60 false (by decide) (by decide) (by decide)
